import Mathlib

/-!
Shallow embedding of `src/tracktor/comet_utils.py` (class `CometLogger`).

The module is a lazy-activation guard around the external `comet_ml`
client.  Instance state is the Python attribute `_logging`, modelled as
`Option Bool` (`none` = `None`, `some true` = `True`, `some false` =
`False`), plus the stored `_comet_args` and the `_experiment` handle.
Process-wide client state (the `comet_ml.config.experiment` slot) and the
observable interactions with the client and the logging sink (client
calls, warnings) live in `CometWorld`.  The external client may raise at
three places — `comet_ml.init()`, `comet_ml.Experiment(**kwargs)` and the
underlying method invoked by a wrapped body — and `CallEnv` resolves that
nondeterminism for one call.  The external client itself follows the
minimal collaborator contract of the specification (section 6): `init()`
as idempotent global setup, `get_global_experiment()` reading a
process-wide slot, `Experiment(**config)` creating a fresh session handle
and installing it in that slot, and pass-through handle methods.
-/

namespace CometUtils

/-- Construction-time configuration forwarded to the client (`**kwargs`),
an opaque mapping of options. -/
abbrev Config := List (String × Nat)

/-- The two kinds of `logging.warning` emissions in `comet_utils.py`: the
manual-experiment clash warning, and `logging.warning(e)` for a caught
activation exception. -/
inductive Warn where
  | clash
  | failure
deriving DecidableEq, Repr

/-- The seven operations of `CometLogger` wrapped by `@_requiresComet`
(`end` is named `endExperiment` because `end` is a Lean keyword). -/
inductive Method where
  | endExperiment
  | log_metric
  | log_model
  | log_image
  | log_code
  | log_asset
  | add_tag
deriving DecidableEq, Repr

/-- Observable interactions with the external `comet_ml` client and the
logging sink. -/
inductive CometEvent where
  | initCall
  | experimentCreate (id : Nat)
  | methodCall (m : Method) (id : Nat)
  | warn (w : Warn)
deriving DecidableEq, Repr

/-- The `CometLogger` instance state.  `_logging` is Python's
`None`/`True`/`False` as `none`/`some true`/`some false`;
`_experiment` is the session handle once created. -/
structure CometLogger where
  _logging : Option Bool
  _comet_args : Config
  _experiment : Option Nat
deriving DecidableEq, Repr

/-- Process-wide state of the external client plus the trace of observable
events.  `globalExperiment` models the slot `comet_ml.config.experiment`,
read by `get_global_experiment()` and cleared by the wrapped `end`. -/
structure CometWorld where
  globalExperiment : Option Nat
  nextId : Nat
  trace : List CometEvent
deriving DecidableEq, Repr

/-- Resolution of the external client nondeterminism for one wrapped call:
whether `comet_ml.init()` raises, whether `comet_ml.Experiment(**kwargs)`
raises, and whether the underlying client method invoked by the wrapped
body raises (for the logging operations this also stands for malformed
arguments the client would reject). -/
structure CallEnv where
  initRaises : Bool
  experimentRaises : Bool
  methodRaises : Bool
deriving DecidableEq, Repr

/-- `CometLogger.__init__(self, comet=False, **kwargs)`: sets
`_logging = None`, stores `kwargs` in `_comet_args`, then sets
`_logging = False` when `comet == False`, and raises
`Exception("Comet not installed...")` when `comet == True` and the
module-level `comet_installed` flag is false. -/
def CometLogger.construct (installed comet : Bool) (kwargs : Config) :
    Except String CometLogger :=
  if comet = false then
    Except.ok { _logging := some false, _comet_args := kwargs, _experiment := none }
  else if comet = true ∧ installed = false then
    Except.error "Comet not installed"
  else
    Except.ok { _logging := none, _comet_args := kwargs, _experiment := none }

/-- The activation block of `_requiresComet.wrapper`, entered when
`self._logging is None and comet_installed`: pre-sets `_logging = False`,
then inside `try`: calls `comet_ml.init()`, emits the clash warning when
`comet_ml.get_global_experiment()` is not `None`, creates
`comet_ml.Experiment(**self._comet_args)` storing it in `_experiment`,
and sets `_logging = True`; any exception is caught and logged as a
warning (`except Exception as e: logging.warning(e)`). -/
def activate (env : CallEnv) (lg : CometLogger) (w : CometWorld) :
    CometLogger × CometWorld :=
  let lg1 : CometLogger := { lg with _logging := some false }
  let w1 : CometWorld := { w with trace := w.trace ++ [CometEvent.initCall] }
  if env.initRaises then
    (lg1, { w1 with trace := w1.trace ++ [CometEvent.warn Warn.failure] })
  else
    let w2 : CometWorld :=
      if w1.globalExperiment.isSome then
        { w1 with trace := w1.trace ++ [CometEvent.warn Warn.clash] }
      else w1
    if env.experimentRaises then
      (lg1, { w2 with trace := w2.trace ++ [CometEvent.warn Warn.failure] })
    else
      ({ lg1 with _experiment := some w2.nextId, _logging := some true },
       { w2 with
          globalExperiment := some w2.nextId,
          nextId := w2.nextId + 1,
          trace := w2.trace ++ [CometEvent.experimentCreate w2.nextId] })

/-- The wrapped body `method(*args, **kwargs)`, executed by the wrapper
only when `self._logging == True`.  Every body invokes a method on
`self._experiment`; that invocation may raise and stands outside any
`try`, so the exception (second component `some ...`) propagates.  The
`end` body is `self._experiment.end()` followed by
`comet_ml.config.experiment = None`. -/
def runMethod (env : CallEnv) (m : Method) (lg : CometLogger) (w : CometWorld) :
    CometWorld × Option String :=
  match lg._experiment with
  | none => (w, some "AttributeError")
  | some i =>
      if env.methodRaises then
        (w, some "client exception")
      else
        match m with
        | Method.endExperiment =>
            ({ w with trace := w.trace ++ [CometEvent.methodCall m i],
                      globalExperiment := none }, none)
        | _ => ({ w with trace := w.trace ++ [CometEvent.methodCall m i] }, none)

/-- One call to a `@_requiresComet`-wrapped operation: the guard activates
lazily when `_logging is None and comet_installed`, then runs the wrapped
body exactly when `_logging == True`.  Returns the updated logger, the
updated world, and `some e` when an exception propagates uncaught to the
caller. -/
def wrappedCall (installed : Bool) (env : CallEnv) (m : Method)
    (lg : CometLogger) (w : CometWorld) :
    CometLogger × CometWorld × Option String :=
  let p :=
    if lg._logging = none ∧ installed = true then activate env lg w else (lg, w)
  if p.1._logging = some true then
    let q := runMethod env m p.1 p.2
    (p.1, q.1, q.2)
  else
    (p.1, p.2, none)

/-- A sequence of wrapped calls; an uncaught exception aborts the sequence
(subsequent calls are not made), as in Python. -/
def runCalls (installed : Bool) :
    List (CallEnv × Method) → CometLogger → CometWorld →
      CometLogger × CometWorld × Option String
  | [], lg, w => (lg, w, none)
  | c :: rest, lg, w =>
      match wrappedCall installed c.1 c.2 lg w with
      | (lg1, w1, none) => runCalls installed rest lg1 w1
      | (lg1, w1, some e) => (lg1, w1, some e)

/-- Number of `Experiment(**config)` session creations recorded in a
world's trace. -/
def sessionCount (w : CometWorld) : Nat :=
  w.trace.countP fun e =>
    match e with
    | CometEvent.experimentCreate _ => true
    | _ => false

/-- Number of clash warnings recorded in a world's trace. -/
def clashCount (w : CometWorld) : Nat :=
  w.trace.countP fun e =>
    match e with
    | CometEvent.warn Warn.clash => true
    | _ => false

/-- A world before any interaction with the client. -/
def initialWorld : CometWorld :=
  { globalExperiment := none, nextId := 0, trace := [] }

/-! ### Helper lemmas -/

/-- A call made while `_logging == False` is a complete no-op: the logger,
the world and the absence of an exception are all unchanged. -/
theorem wrappedCall_disabled (installed : Bool) (env : CallEnv) (m : Method)
    (lg : CometLogger) (w : CometWorld) (h : lg._logging = some false) :
    wrappedCall installed env m lg w = (lg, w, none) := by
  simp [wrappedCall, h]

/-- Any call sequence starting from `_logging == False` is a complete
no-op. -/
theorem runCalls_disabled (installed : Bool) (calls : List (CallEnv × Method))
    (lg : CometLogger) (w : CometWorld) (h : lg._logging = some false) :
    runCalls installed calls lg w = (lg, w, none) := by
  induction calls with
  | nil => rfl
  | cons c rest ih =>
      simp [runCalls, wrappedCall_disabled installed c.1 c.2 lg w h, ih]

/-- A call made while `_logging == True` leaves the logger unchanged. -/
theorem wrappedCall_active_fst (installed : Bool) (env : CallEnv) (m : Method)
    (lg : CometLogger) (w : CometWorld) (h : lg._logging = some true) :
    (wrappedCall installed env m lg w).1 = lg := by
  simp [wrappedCall, h]

/-- A call made while `_logging == True` creates no client session. -/
theorem wrappedCall_active_sessionCount (installed : Bool) (env : CallEnv)
    (m : Method) (lg : CometLogger) (w : CometWorld)
    (h : lg._logging = some true) :
    sessionCount (wrappedCall installed env m lg w).2.1 = sessionCount w := by
  cases hexp : lg._experiment with
  | none => simp [wrappedCall, runMethod, h, hexp]
  | some i =>
      cases hm : env.methodRaises <;> cases m <;>
        simp [wrappedCall, runMethod, h, hexp, hm, sessionCount,
              List.countP_append, List.countP_cons]

/-- Any call sequence starting from `_logging == True` leaves the logger
unchanged and creates no client session. -/
theorem runCalls_active (installed : Bool) (calls : List (CallEnv × Method))
    (lg : CometLogger) (w : CometWorld) (h : lg._logging = some true) :
    (runCalls installed calls lg w).1 = lg ∧
    sessionCount (runCalls installed calls lg w).2.1 = sessionCount w := by
  induction calls generalizing w with
  | nil => exact ⟨rfl, rfl⟩
  | cons c rest ih =>
      rcases hr : wrappedCall installed c.1 c.2 lg w with ⟨lg1, w1, e⟩
      have hfst : lg1 = lg := by
        have h1 := wrappedCall_active_fst installed c.1 c.2 lg w h
        rw [hr] at h1; exact h1
      have hsc : sessionCount w1 = sessionCount w := by
        have h2 := wrappedCall_active_sessionCount installed c.1 c.2 lg w h
        rw [hr] at h2; exact h2
      subst hfst
      cases e with
      | none =>
          have step : runCalls installed (c :: rest) lg1 w =
              runCalls installed rest lg1 w1 := by
            simp [runCalls, hr]
          rw [step]
          exact ⟨(ih w1).1, (ih w1).2.trans hsc⟩
      | some e =>
          have step : runCalls installed (c :: rest) lg1 w = (lg1, w1, some e) := by
            simp [runCalls, hr]
          rw [step]
          exact ⟨rfl, hsc⟩

/-- A first call on an enabled, uninitialized logger whose activation
fails (either `comet_ml.init()` or `Experiment(**kwargs)` raises) catches
the exception, logs it as a warning, leaves the logger permanently
disabled and returns normally. -/
theorem wrappedCall_activation_failure (env : CallEnv) (m : Method)
    (lg : CometLogger) (w : CometWorld) (hun : lg._logging = none)
    (hfail : env.initRaises = true ∨ env.experimentRaises = true) :
    (wrappedCall true env m lg w).1 = { lg with _logging := some false } ∧
    CometEvent.warn Warn.failure ∈ (wrappedCall true env m lg w).2.1.trace ∧
    (wrappedCall true env m lg w).2.2 = none := by
  rcases hfail with h1 | h2
  · simp [wrappedCall, activate, hun, h1]
  · cases hi : env.initRaises with
    | true => simp [wrappedCall, activate, hun, hi]
    | false =>
        cases hg : w.globalExperiment.isSome <;>
          simp [wrappedCall, activate, hun, hi, h2, hg]

/-- A first call on an enabled, uninitialized logger whose activation
succeeds sets `_logging = True` and creates exactly one client session. -/
theorem wrappedCall_activation_success (env : CallEnv) (m : Method)
    (lg : CometLogger) (w : CometWorld) (hun : lg._logging = none)
    (h1 : env.initRaises = false) (h2 : env.experimentRaises = false) :
    (wrappedCall true env m lg w).1 =
      { lg with _logging := some true, _experiment := some w.nextId } ∧
    sessionCount (wrappedCall true env m lg w).2.1 = sessionCount w + 1 := by
  cases hg : w.globalExperiment.isSome <;>
    cases hm : env.methodRaises <;> cases m <;>
      simp [wrappedCall, activate, runMethod, hun, h1, h2, hg, hm,
            sessionCount, List.countP_append, List.countP_cons]

/-! ### Claims -/

/-- C1 counterexample: the claim that no exception from a post-activation
logging call ever propagates to the caller is false.  Start an enabled
logger, let the first `log_metric` call activate successfully (state
becomes ACTIVE), then make a second `log_metric` call in which the
underlying client raises: the exception propagates uncaught, because in
`_requiresComet.wrapper` only the activation block sits inside
`try/except`; the wrapped `method(*args, **kwargs)` call does not. -/
theorem comet_C1_counterexample :
    (runCalls true
      [(⟨false, false, false⟩, Method.log_metric),
       (⟨false, false, true⟩, Method.log_metric)]
      { _logging := none, _comet_args := [], _experiment := none }
      initialWorld).2.2 = some "client exception" := by
  rfl

/-- C1 (amended): for a logging operation called while the state is
ACTIVE, an exception raised by the underlying client operation propagates
uncaught to the caller; when the client operation does not raise, the call
returns normally.  Only exceptions raised during the activation attempt
are caught and logged as warnings. -/
theorem comet_C1_amended (installed : Bool) (env : CallEnv) (m : Method)
    (lg : CometLogger) (w : CometWorld) (i : Nat) :
    (lg._logging = some true → lg._experiment = some i →
      env.methodRaises = true →
      (wrappedCall installed env m lg w).2.2 = some "client exception") ∧
    (lg._logging = some true → lg._experiment = some i →
      env.methodRaises = false →
      (wrappedCall installed env m lg w).2.2 = none) ∧
    (lg._logging = none →
      env.initRaises = true ∨ env.experimentRaises = true →
      (wrappedCall true env m lg w).2.2 = none ∧
      CometEvent.warn Warn.failure ∈ (wrappedCall true env m lg w).2.1.trace) := by
  refine ⟨?_, ?_, ?_⟩
  · intro hact hexp hm
    simp [wrappedCall, runMethod, hact, hexp, hm]
  · intro hact hexp hm
    cases m <;> simp [wrappedCall, runMethod, hact, hexp, hm]
  · intro hun hfail
    have h := wrappedCall_activation_failure env m lg w hun hfail
    exact ⟨h.2.2, h.2.1⟩

/-- Witness for C1 (amended) at a concrete ACTIVE state where the client
raises. -/
theorem comet_C1_amended_witness :
    (wrappedCall true ⟨false, false, true⟩ Method.log_metric
      { _logging := some true, _comet_args := [], _experiment := some 0 }
      initialWorld).2.2 = some "client exception" :=
  (comet_C1_amended true ⟨false, false, true⟩ Method.log_metric
      { _logging := some true, _comet_args := [], _experiment := some 0 }
      initialWorld 0).1 rfl rfl rfl

/-- C2: enabled guard, dependency installed, first activation throws ⇒
the state becomes DISABLED (`_logging = False`) permanently, a warning is
emitted, the first call returns normally (no exception escapes), and
every subsequent call of any operation is a complete no-op. -/
theorem comet_C2 (kwargs : Config) (env : CallEnv) (m : Method)
    (w : CometWorld) (calls : List (CallEnv × Method))
    (hfail : env.initRaises = true ∨ env.experimentRaises = true) :
    ∃ lg0 lg1 w1,
      CometLogger.construct true true kwargs = Except.ok lg0 ∧
      wrappedCall true env m lg0 w = (lg1, w1, none) ∧
      lg1._logging = some false ∧
      CometEvent.warn Warn.failure ∈ w1.trace ∧
      runCalls true calls lg1 w1 = (lg1, w1, none) := by
  refine ⟨{ _logging := none, _comet_args := kwargs, _experiment := none },
    (wrappedCall true env m ⟨none, kwargs, none⟩ w).1,
    (wrappedCall true env m ⟨none, kwargs, none⟩ w).2.1, rfl, ?_, ?_, ?_, ?_⟩
  · have h := (wrappedCall_activation_failure env m ⟨none, kwargs, none⟩ w rfl hfail).2.2
    rw [show wrappedCall true env m ⟨none, kwargs, none⟩ w =
      ((wrappedCall true env m ⟨none, kwargs, none⟩ w).1,
       (wrappedCall true env m ⟨none, kwargs, none⟩ w).2.1,
       (wrappedCall true env m ⟨none, kwargs, none⟩ w).2.2) from rfl, h]
  · rw [(wrappedCall_activation_failure env m ⟨none, kwargs, none⟩ w rfl hfail).1]
  · exact (wrappedCall_activation_failure env m ⟨none, kwargs, none⟩ w rfl hfail).2.1
  · apply runCalls_disabled
    rw [(wrappedCall_activation_failure env m ⟨none, kwargs, none⟩ w rfl hfail).1]

/-- Witness for C2: enabled logger whose first activation fails because
`comet_ml.init()` raises. -/
theorem comet_C2_witness :
    ∃ lg0 lg1 w1,
      CometLogger.construct true true [] = Except.ok lg0 ∧
      wrappedCall true ⟨true, false, false⟩ Method.log_metric lg0 initialWorld =
        (lg1, w1, none) ∧
      lg1._logging = some false ∧
      CometEvent.warn Warn.failure ∈ w1.trace ∧
      runCalls true [(⟨false, false, false⟩, Method.add_tag)] lg1 w1 =
        (lg1, w1, none) :=
  comet_C2 [] ⟨true, false, false⟩ Method.log_metric initialWorld
    [(⟨false, false, false⟩, Method.add_tag)] (Or.inl rfl)

/-- C3: enabled guard, dependency installed, first activation succeeds ⇒
across the first call and arbitrarily many subsequent calls exactly one
client session is created: `Experiment(**config)` runs exactly once. -/
theorem comet_C3 (kwargs : Config) (env : CallEnv) (m : Method)
    (w : CometWorld) (calls : List (CallEnv × Method)) (lg0 : CometLogger)
    (h0 : CometLogger.construct true true kwargs = Except.ok lg0)
    (h1 : env.initRaises = false) (h2 : env.experimentRaises = false) :
    sessionCount (runCalls true calls (wrappedCall true env m lg0 w).1
        (wrappedCall true env m lg0 w).2.1).2.1 = sessionCount w + 1 := by
  have hlg0 : lg0 = { _logging := none, _comet_args := kwargs, _experiment := none } := by
    simpa [CometLogger.construct] using h0.symm
  subst hlg0
  have hs := wrappedCall_activation_success env m ⟨none, kwargs, none⟩ w rfl h1 h2
  have hact : (wrappedCall true env m ⟨none, kwargs, none⟩ w).1._logging = some true := by
    rw [hs.1]
  have hrest := runCalls_active true calls
    (wrappedCall true env m ⟨none, kwargs, none⟩ w).1
    (wrappedCall true env m ⟨none, kwargs, none⟩ w).2.1 hact
  rw [hrest.2, hs.2]

/-- Witness for C3: one successful activating call followed by two more
calls still yields exactly one session creation. -/
theorem comet_C3_witness :
    sessionCount (runCalls true
      [(⟨false, false, false⟩, Method.add_tag),
       (⟨false, false, false⟩, Method.log_image)]
      (wrappedCall true ⟨false, false, false⟩ Method.log_metric
        { _logging := none, _comet_args := [], _experiment := none } initialWorld).1
      (wrappedCall true ⟨false, false, false⟩ Method.log_metric
        { _logging := none, _comet_args := [], _experiment := none } initialWorld).2.1).2.1
      = sessionCount initialWorld + 1 :=
  comet_C3 [] ⟨false, false, false⟩ Method.log_metric initialWorld
    [(⟨false, false, false⟩, Method.add_tag),
     (⟨false, false, false⟩, Method.log_image)]
    { _logging := none, _comet_args := [], _experiment := none } rfl rfl rfl

/-- C4: tri-state transition invariant.  For every sequence of operation
calls, once `_logging = False` (DISABLED) the state stays `False` forever
(never ACTIVE), and once `_logging = True` (ACTIVE) the state stays
`True` forever (never reverts to `None`, UNINITIALIZED). -/
theorem comet_C4 (installed : Bool) (calls : List (CallEnv × Method))
    (lg : CometLogger) (w : CometWorld) :
    (lg._logging = some false →
      (runCalls installed calls lg w).1._logging = some false) ∧
    (lg._logging = some true →
      (runCalls installed calls lg w).1._logging = some true) := by
  constructor
  · intro h
    rw [runCalls_disabled installed calls lg w h]
    exact h
  · intro h
    rw [(runCalls_active installed calls lg w h).1]
    exact h

/-- Witness for C4 on concrete DISABLED and ACTIVE loggers. -/
theorem comet_C4_witness :
    (runCalls true [(⟨false, false, false⟩, Method.log_metric)]
      { _logging := some false, _comet_args := [], _experiment := none }
      initialWorld).1._logging = some false ∧
    (runCalls true [(⟨false, false, false⟩, Method.log_metric)]
      { _logging := some true, _comet_args := [], _experiment := some 0 }
      initialWorld).1._logging = some true :=
  ⟨(comet_C4 true [(⟨false, false, false⟩, Method.log_metric)]
      { _logging := some false, _comet_args := [], _experiment := none }
      initialWorld).1 rfl,
   (comet_C4 true [(⟨false, false, false⟩, Method.log_metric)]
      { _logging := some true, _comet_args := [], _experiment := some 0 }
      initialWorld).2 rfl⟩

/-- C5 counterexample: `__init__` stores `self._comet_args = kwargs`
unconditionally, before the `comet == False` branch, so when the guard is
constructed with `comet=False` the forwarded configuration is retained in
the constructed object, not discarded: with `kwargs = [("project", 7)]`
the constructed object carries `_comet_args = [("project", 7)] ≠ []`. -/
theorem comet_C5_counterexample :
    CometLogger.construct true false [("project", 7)] =
      Except.ok { _logging := some false, _comet_args := [("project", 7)],
                  _experiment := none } ∧
    ([("project", 7)] : Config) ≠ [] :=
  ⟨rfl, by decide⟩

/-- C5 (amended): constructing with `comet=False` sets the state to
DISABLED (`_logging = False`) immediately, but the forwarded
configuration is retained verbatim in the object's `_comet_args` field
(it is merely never used while DISABLED). -/
theorem comet_C5_amended (installed : Bool) (kwargs : Config) :
    CometLogger.construct installed false kwargs =
      Except.ok { _logging := some false, _comet_args := kwargs,
                  _experiment := none } :=
  rfl

/-- C6: a guard constructed with `comet=False` makes every subsequent
call of every operation a complete no-op: the logger and the world
(hence the client and its trace) are unchanged and no exception is ever
raised, whatever the client would have done with the arguments (the
`methodRaises` component of each `CallEnv` covers malformed arguments the
client would reject, such as `log_metric("x", float("nan"))`). -/
theorem comet_C6 (installed : Bool) (kwargs : Config)
    (calls : List (CallEnv × Method)) (w : CometWorld) (lg0 : CometLogger)
    (h : CometLogger.construct installed false kwargs = Except.ok lg0) :
    runCalls installed calls lg0 w = (lg0, w, none) := by
  have hlg0 : lg0 = ⟨some false, kwargs, none⟩ := by
    simpa [CometLogger.construct] using h.symm
  subst hlg0
  exact runCalls_disabled installed calls _ w rfl

/-- Witness for C6: a disabled logger ignores calls whose client behavior
would raise (malformed arguments). -/
theorem comet_C6_witness :
    runCalls true
      [(⟨true, true, true⟩, Method.log_metric),
       (⟨false, false, true⟩, Method.endExperiment)]
      { _logging := some false, _comet_args := [("x", 1)], _experiment := none }
      initialWorld =
      ({ _logging := some false, _comet_args := [("x", 1)], _experiment := none },
       initialWorld, none) :=
  comet_C6 true [("x", 1)]
    [(⟨true, true, true⟩, Method.log_metric),
     (⟨false, false, true⟩, Method.endExperiment)]
    initialWorld
    { _logging := some false, _comet_args := [("x", 1)], _experiment := none } rfl

/-- C7: during an activation attempt on a process that already holds a
global tracking session (`get_global_experiment()` is not `None`), the
clash warning is emitted exactly once for the attempt, and activation
still proceeds and succeeds absent other failures (`_logging = True`). -/
theorem comet_C7 (env : CallEnv) (lg : CometLogger) (w : CometWorld)
    (hg : w.globalExperiment.isSome = true)
    (h1 : env.initRaises = false) (h2 : env.experimentRaises = false) :
    (activate env lg w).1._logging = some true ∧
    clashCount (activate env lg w).2 = clashCount w + 1 := by
  simp [activate, h1, h2, hg, clashCount, List.countP_append, List.countP_cons]

/-- Witness for C7: activation with a pre-existing global experiment. -/
theorem comet_C7_witness :
    (activate ⟨false, false, false⟩
      { _logging := none, _comet_args := [], _experiment := none }
      { globalExperiment := some 5, nextId := 6, trace := [] }).1._logging = some true ∧
    clashCount (activate ⟨false, false, false⟩
      { _logging := none, _comet_args := [], _experiment := none }
      { globalExperiment := some 5, nextId := 6, trace := [] }).2 =
      clashCount { globalExperiment := some 5, nextId := 6, trace := [] } + 1 :=
  comet_C7 ⟨false, false, false⟩
    { _logging := none, _comet_args := [], _experiment := none }
    { globalExperiment := some 5, nextId := 6, trace := [] } rfl rfl rfl

/-- C8: calling `end()` while ACTIVE (with session handle `i`) invokes
`self._experiment.end()` (the `methodCall endExperiment i` event) and
clears the process-wide current-session slot
(`comet_ml.config.experiment = None`); the call returns normally. -/
theorem comet_C8 (installed : Bool) (env : CallEnv) (lg : CometLogger)
    (w : CometWorld) (i : Nat)
    (hact : lg._logging = some true) (hexp : lg._experiment = some i)
    (hok : env.methodRaises = false) :
    wrappedCall installed env Method.endExperiment lg w =
      (lg, { w with trace := w.trace ++ [CometEvent.methodCall Method.endExperiment i], globalExperiment := none }, none) := by
  simp [wrappedCall, runMethod, hact, hexp, hok]

/-- Witness for C8 on a concrete ACTIVE logger. -/
theorem comet_C8_witness :
    wrappedCall true ⟨false, false, false⟩ Method.endExperiment
      { _logging := some true, _comet_args := [], _experiment := some 4 }
      { globalExperiment := some 4, nextId := 5, trace := [] } =
      ({ _logging := some true, _comet_args := [], _experiment := some 4 },
       { globalExperiment := none, nextId := 5,
         trace := [CometEvent.methodCall Method.endExperiment 4] }, none) :=
  comet_C8 true ⟨false, false, false⟩
    { _logging := some true, _comet_args := [], _experiment := some 4 }
    { globalExperiment := some 4, nextId := 5, trace := [] } 4 rfl rfl rfl

/-- C9: constructing with `comet=True` while the dependency is absent
raises the dependency-missing error; moreover this is the only
construction-time error: construction fails exactly when `comet=True`
and the dependency is absent (so with `comet=False`, or with the
dependency present, a usable object is returned). -/
theorem comet_C9 (installed comet : Bool) (kwargs : Config) :
    (comet = true → installed = false →
      CometLogger.construct installed comet kwargs =
        Except.error "Comet not installed") ∧
    ((∃ e, CometLogger.construct installed comet kwargs = Except.error e) ↔
      comet = true ∧ installed = false) := by
  cases comet <;> cases installed <;> simp [CometLogger.construct]

/-- Witness for C9: dependency absent, tracking requested. -/
theorem comet_C9_witness :
    CometLogger.construct false true [("project", 7)] =
      Except.error "Comet not installed" :=
  (comet_C9 false true [("project", 7)]).1 rfl rfl

/-- C10: calling `end()` as the very first operation on an enabled guard
in state UNINITIALIZED (dependency installed) first performs full
activation — creating a brand-new client session with the fresh id
`w.nextId` — and then immediately ends that freshly created session
(invoking its `end` and clearing the global slot). -/
theorem comet_C10 (kwargs : Config) (env : CallEnv) (w : CometWorld)
    (lg0 : CometLogger)
    (h0 : CometLogger.construct true true kwargs = Except.ok lg0)
    (h1 : env.initRaises = false) (h2 : env.experimentRaises = false)
    (h3 : env.methodRaises = false) :
    (wrappedCall true env Method.endExperiment lg0 w).1 =
      ⟨some true, kwargs, some w.nextId⟩ ∧
    sessionCount (wrappedCall true env Method.endExperiment lg0 w).2.1 =
      sessionCount w + 1 ∧
    CometEvent.experimentCreate w.nextId ∈
      (wrappedCall true env Method.endExperiment lg0 w).2.1.trace ∧
    CometEvent.methodCall Method.endExperiment w.nextId ∈
      (wrappedCall true env Method.endExperiment lg0 w).2.1.trace ∧
    (wrappedCall true env Method.endExperiment lg0 w).2.1.globalExperiment = none ∧
    (wrappedCall true env Method.endExperiment lg0 w).2.2 = none := by
  have hlg0 : lg0 = ⟨none, kwargs, none⟩ := by
    simpa [CometLogger.construct] using h0.symm
  subst hlg0
  cases hg : w.globalExperiment.isSome <;>
    simp [wrappedCall, activate, runMethod, h1, h2, h3, hg, sessionCount,
          List.countP_append, List.countP_cons]

/-- Witness for C10: `end()` as the first call on a fresh enabled guard. -/
theorem comet_C10_witness :
    (wrappedCall true ⟨false, false, false⟩ Method.endExperiment
      { _logging := none, _comet_args := [], _experiment := none }
      initialWorld).1 = ⟨some true, [], some initialWorld.nextId⟩ ∧
    sessionCount (wrappedCall true ⟨false, false, false⟩ Method.endExperiment
      { _logging := none, _comet_args := [], _experiment := none }
      initialWorld).2.1 = sessionCount initialWorld + 1 ∧
    CometEvent.experimentCreate initialWorld.nextId ∈
      (wrappedCall true ⟨false, false, false⟩ Method.endExperiment
        { _logging := none, _comet_args := [], _experiment := none }
        initialWorld).2.1.trace ∧
    CometEvent.methodCall Method.endExperiment initialWorld.nextId ∈
      (wrappedCall true ⟨false, false, false⟩ Method.endExperiment
        { _logging := none, _comet_args := [], _experiment := none }
        initialWorld).2.1.trace ∧
    (wrappedCall true ⟨false, false, false⟩ Method.endExperiment
      { _logging := none, _comet_args := [], _experiment := none }
      initialWorld).2.1.globalExperiment = none ∧
    (wrappedCall true ⟨false, false, false⟩ Method.endExperiment
      { _logging := none, _comet_args := [], _experiment := none }
      initialWorld).2.2 = none :=
  comet_C10 [] ⟨false, false, false⟩ initialWorld
    { _logging := none, _comet_args := [], _experiment := none } rfl rfl rfl rfl

end CometUtils
